import Mathlib

/-!
Shallow embedding of the pointer tilt and glow engine of the metallic-card
repository, together with its device capability classifier.

Sources embedded here:
* `lib/performance-utils` (reproduced in `CHANGELOG-iOS-Safari.md`):
  `throttleRAF`, `isMobileDevice`, `prefersReducedMotion`,
  `getPerformanceSettings`.
* `components/electric-border-card.tsx`, optimized version (third document of
  `src/unnamed/part_012`): `handleMouseMove` (with its requestAnimationFrame
  coalescing), `handleMouseEnter`, `handleMouseLeave`, the unmount cleanup
  effect, and the `useState` initial values.
* The earlier version of the same component (second document of
  `src/unnamed/part_012`), embedded under namespace `V1`: its synchronous
  `handleMouseMove` and its `handleMouseLeave`.

Numbers are rationals; JavaScript division by zero has no rational
counterpart, so the zero-width/zero-height behaviour is discussed where it
matters (the embedding's division by zero yields 0, JavaScript yields a
non-finite value; in both semantics the state is overwritten, not retained).
-/

/-- Runtime environment snapshot sampled by the classifier: whether a
`window` object exists, the touch signals, the viewport width and the
reduced-motion media query. -/
structure Env where
  windowDefined : Bool
  ontouchstart : Bool
  maxTouchPoints : Nat
  innerWidth : ℚ
  reducedMotion : Bool
deriving Repr, DecidableEq

/-- `isMobileDevice` from performance-utils: `typeof window === 'undefined'`
returns false; otherwise touch support (`'ontouchstart' in window ||
navigator.maxTouchPoints > 0`) or `window.innerWidth <= 768`. -/
def isMobileDevice (env : Env) : Bool :=
  if !env.windowDefined then false
  else
    let hasTouch := env.ontouchstart || decide (0 < env.maxTouchPoints)
    let isSmallScreen := decide (env.innerWidth ≤ 768)
    hasTouch || isSmallScreen

/-- `prefersReducedMotion` from performance-utils: false when `window` is
undefined, otherwise the reduced-motion media query. -/
def prefersReducedMotion (env : Env) : Bool :=
  if !env.windowDefined then false
  else env.reducedMotion

/-- The record returned by `getPerformanceSettings`. -/
structure PerfSettings where
  enableComplexFilters : Bool
  enableBlur : Bool
  enableTransitions : Bool
  throttleDelay : ℚ
  maxRotation : ℚ
deriving Repr, DecidableEq

/-- `getPerformanceSettings` from performance-utils. -/
def getPerformanceSettings (env : Env) : PerfSettings :=
  let isMobile := isMobileDevice env
  let reducedMotion := prefersReducedMotion env
  { enableComplexFilters := !isMobile
    enableBlur := !isMobile
    enableTransitions := !reducedMotion
    throttleDelay := if isMobile then 100 else 16
    maxRotation := if isMobile then 5 else 10 }

/-- A pointer event's client coordinates (`e.clientX`, `e.clientY`). -/
structure Sample where
  clientX : ℚ
  clientY : ℚ
deriving Repr, DecidableEq

/-- A bounding rectangle as returned by `getBoundingClientRect`. -/
structure Rect where
  left : ℚ
  top : ℚ
  width : ℚ
  height : ℚ
deriving Repr, DecidableEq

/-- The card's reactive state: the five `useState` numbers plus the hover
flag of `ElectricBorderCard`. -/
structure TiltState where
  rotateX : ℚ
  rotateY : ℚ
  rotateZ : ℚ
  glowX : ℚ
  glowY : ℚ
  isHovered : Bool
deriving Repr, DecidableEq

/-- The `useState` initial values: resting pose (15, -20, 5), glow (50, 50),
not hovered. -/
def initialTilt : TiltState :=
  { rotateX := 15, rotateY := -20, rotateZ := 5
    glowX := 50, glowY := 50, isHovered := false }

/-- Body of the requestAnimationFrame callback scheduled by the optimized
`handleMouseMove`: center offset, damped normalization (factor 0.8),
rotation offsets (`normalizedX * maxRotation`, `-normalizedY * maxRotation`,
`normalizedX * 3`) added to the resting pose, and the glow percentages. -/
def applyMove (maxRotation : ℚ) (rect : Rect) (e : Sample) (st : TiltState) :
    TiltState :=
  let centerX := rect.left + rect.width / 2
  let centerY := rect.top + rect.height / 2
  let mouseX := e.clientX - centerX
  let mouseY := e.clientY - centerY
  let dampingFactor : ℚ := 0.8
  let normalizedX := mouseX / (rect.width / 2) * dampingFactor
  let normalizedY := mouseY / (rect.height / 2) * dampingFactor
  let rotationY := normalizedX * maxRotation
  let rotationX := -normalizedY * maxRotation
  let rotationZ := normalizedX * 3
  let glowXPos := (e.clientX - rect.left) / rect.width * 100
  let glowYPos := (e.clientY - rect.top) / rect.height * 100
  { st with
    rotateX := 15 + rotationX
    rotateY := -20 + rotationY
    rotateZ := 5 + rotationZ
    glowX := glowXPos
    glowY := glowYPos }

/-- Engine instance state: the tilt state, the list of scheduled and not yet
cancelled animation-frame callbacks (id paired with the captured pointer
sample), the `rafIdRef` cell, a fresh-id counter standing for the browser's
handle allocation, and whether `cardRef.current` is non-null (the component
is mounted). -/
structure EngineState where
  tilt : TiltState
  queue : List (Nat × Sample)
  rafId : Option Nat
  nextId : Nat
  mounted : Bool
deriving Repr, DecidableEq

/-- Engine state at mount: initial tilt, nothing scheduled. -/
def initialEngine : EngineState :=
  { tilt := initialTilt, queue := [], rafId := none, nextId := 0
    mounted := true }

/-- Remove from the scheduled queue the callback named by `rafIdRef`
(`cancelAnimationFrame(rafIdRef.current)`); identity when `rafIdRef` is
null. -/
def cancelPending (st : EngineState) : List (Nat × Sample) :=
  match st.rafId with
  | none => st.queue
  | some id => st.queue.filter (fun p => p.1 ≠ id)

/-- The optimized `handleMouseMove`: early return when `cardRef.current` is
null; otherwise cancel any pending RAF and schedule a fresh callback
capturing this event's coordinates, storing its handle in `rafIdRef`. -/
def handleMouseMove (e : Sample) (st : EngineState) : EngineState :=
  if !st.mounted then st
  else
    { st with
      queue := cancelPending st ++ [(st.nextId, e)]
      rafId := some st.nextId
      nextId := st.nextId + 1 }

/-- One scheduled callback firing: the callback re-checks
`cardRef.current` (early return when null, leaving `rafIdRef` untouched),
re-measures the rectangle, applies the move computation, then nulls
`rafIdRef`. -/
def fireCallback (rect : Rect) (maxRotation : ℚ) (e : Sample)
    (st : EngineState) : EngineState :=
  if !st.mounted then st
  else { st with tilt := applyMove maxRotation rect e st.tilt, rafId := none }

/-- A display-refresh tick: every still-scheduled callback runs in schedule
order against the rectangle measured at that tick, and the browser's queue
empties. -/
def frameFire (rect : Rect) (maxRotation : ℚ) (st : EngineState) :
    EngineState :=
  let st1 := st.queue.foldl (fun s p => fireCallback rect maxRotation p.2 s) st
  { st1 with queue := [] }

/-- The optimized `handleMouseEnter`: early return when unmounted; set the
glow to the entry point's fractional position and set `isHovered`. -/
def handleMouseEnter (rect : Rect) (e : Sample) (st : EngineState) :
    EngineState :=
  if !st.mounted then st
  else
    { st with
      tilt := { st.tilt with
        glowX := (e.clientX - rect.left) / rect.width * 100
        glowY := (e.clientY - rect.top) / rect.height * 100
        isHovered := true } }

/-- The optimized `handleMouseLeave`: clear `isHovered`, reset the three
rotations to the resting pose, keep the glow position, and touch neither
`rafIdRef` nor the scheduled queue. -/
def handleMouseLeave (st : EngineState) : EngineState :=
  { st with
    tilt := { st.tilt with
      isHovered := false, rotateX := 15, rotateY := -20, rotateZ := 5 } }

/-- The unmount cleanup effect: cancel the pending RAF named by `rafIdRef`
if any; afterwards `cardRef.current` is null. -/
def dispose (st : EngineState) : EngineState :=
  { st with queue := cancelPending st, mounted := false }

namespace V1

/-- The earlier (second document of part_012) `handleMouseMove`: same math
as the optimized version but synchronous, with `maxRotation` hard-coded to
10, and no scheduling. -/
def handleMouseMove (rect : Rect) (e : Sample) (st : TiltState) : TiltState :=
  applyMove 10 rect e st

/-- The earlier `handleMouseLeave`: clears `isHovered`, resets the rotations
to the resting pose, and also resets `glowX`/`glowY` to 50. -/
def handleMouseLeave (st : TiltState) : TiltState :=
  { st with
    isHovered := false, rotateX := 15, rotateY := -20, rotateZ := 5
    glowX := 50, glowY := 50 }

end V1

/-- State owned by one `throttleRAF` wrapper: the pending animation-frame
handle, the most recent arguments, and a fresh-handle counter. -/
structure ThrottleState (α : Type) where
  rafId : Option Nat
  lastArgs : Option α
  nextId : Nat
deriving Repr, DecidableEq

/-- A `throttleRAF` wrapper before any call: no frame scheduled, no stored
arguments. -/
def ThrottleState.idle (α : Type) : ThrottleState α :=
  { rafId := none, lastArgs := none, nextId := 0 }

/-- One call of the throttled function: always overwrite `lastArgs`; only
when no frame is scheduled, request one and remember its handle (the
existing scheduled frame is kept, never cancelled). -/
def throttledCall {α : Type} (a : α) (st : ThrottleState α) :
    ThrottleState α :=
  let st1 := { st with lastArgs := some a }
  match st1.rafId with
  | some _ => st1
  | none => { st1 with rafId := some st1.nextId, nextId := st1.nextId + 1 }

/-- The scheduled frame firing: if a frame was scheduled, the callback runs
with `lastArgs` when non-null, then both cells are cleared. Returns the
list of argument tuples the wrapped callback is invoked with during this
frame. -/
def throttleFrameFire {α : Type} (st : ThrottleState α) :
    List α × ThrottleState α :=
  match st.rafId with
  | none => ([], st)
  | some _ =>
      let fired := match st.lastArgs with
        | some a => [a]
        | none => []
      (fired, { st with rafId := none, lastArgs := none })

/-- Reachable-state invariant of the engine's scheduling cells: the queue is
empty, or holds exactly the one callback whose handle `rafIdRef` stores. -/
def EngineInv (st : EngineState) : Prop :=
  st.queue = [] ∨ ∃ id e, st.rafId = some id ∧ st.queue = [(id, e)]

/-! Helper lemmas. -/

lemma abs_ratio_le_one {a b : ℚ} (hb : 0 < b) (h1 : -b ≤ a) (h2 : a ≤ b) :
    |a / b| ≤ 1 := by
  rw [abs_div, abs_of_pos hb, div_le_one hb]
  exact abs_le.mpr ⟨h1, h2⟩

lemma maxRotation_nonneg (env : Env) :
    0 ≤ (getPerformanceSettings env).maxRotation := by
  simp only [getPerformanceSettings]
  split <;> norm_num

lemma damped_bound {t maxR : ℚ} (ht : |t| ≤ 1) (hm : 0 ≤ maxR) :
    |t * 0.8 * maxR| ≤ 0.8 * maxR := by
  rw [abs_mul, abs_mul]
  have h08 : |(0.8 : ℚ)| = 0.8 := by norm_num
  rw [h08, abs_of_nonneg hm]
  calc |t| * 0.8 * maxR ≤ 1 * 0.8 * maxR := by
        apply mul_le_mul_of_nonneg_right _ hm
        exact mul_le_mul_of_nonneg_right ht (by norm_num)
    _ = 0.8 * maxR := by ring

lemma applyMove_rotateX_eq (maxR : ℚ) (rect : Rect) (e : Sample)
    (st : TiltState) :
    (applyMove maxR rect e st).rotateX - 15
      = -((e.clientY - (rect.top + rect.height / 2)) / (rect.height / 2)
          * 0.8 * maxR) := by
  simp only [applyMove]
  ring

lemma applyMove_rotateY_eq (maxR : ℚ) (rect : Rect) (e : Sample)
    (st : TiltState) :
    (applyMove maxR rect e st).rotateY - (-20)
      = (e.clientX - (rect.left + rect.width / 2)) / (rect.width / 2)
          * 0.8 * maxR := by
  simp only [applyMove]
  ring

/-! C1: rotation offsets bounded inside the rectangle. -/

/-- C1: for a pointer sample inside the card's bounding rectangle, the X and
Y rotation offsets applied by the tilt engine are bounded by
`0.8 * maxRotation` (the damping factor times the active profile's maximum),
hence also by `maxRotation` itself. -/
theorem tilt_offsets_bounded (env : Env) (rect : Rect) (e : Sample)
    (st : TiltState)
    (hw : 0 < rect.width) (hh : 0 < rect.height)
    (hx1 : rect.left ≤ e.clientX) (hx2 : e.clientX ≤ rect.left + rect.width)
    (hy1 : rect.top ≤ e.clientY) (hy2 : e.clientY ≤ rect.top + rect.height) :
    |(applyMove (getPerformanceSettings env).maxRotation rect e st).rotateX
        - 15| ≤ 0.8 * (getPerformanceSettings env).maxRotation ∧
    |(applyMove (getPerformanceSettings env).maxRotation rect e st).rotateY
        - (-20)| ≤ 0.8 * (getPerformanceSettings env).maxRotation ∧
    |(applyMove (getPerformanceSettings env).maxRotation rect e st).rotateX
        - 15| ≤ (getPerformanceSettings env).maxRotation ∧
    |(applyMove (getPerformanceSettings env).maxRotation rect e st).rotateY
        - (-20)| ≤ (getPerformanceSettings env).maxRotation := by
  have hm := maxRotation_nonneg env
  have hty : |(e.clientY - (rect.top + rect.height / 2)) / (rect.height / 2)|
      ≤ 1 :=
    abs_ratio_le_one (by linarith) (by linarith) (by linarith)
  have htx : |(e.clientX - (rect.left + rect.width / 2)) / (rect.width / 2)|
      ≤ 1 :=
    abs_ratio_le_one (by linarith) (by linarith) (by linarith)
  have hX : |(applyMove (getPerformanceSettings env).maxRotation rect e
      st).rotateX - 15| ≤ 0.8 * (getPerformanceSettings env).maxRotation := by
    rw [applyMove_rotateX_eq, abs_neg]
    exact damped_bound hty hm
  have hY : |(applyMove (getPerformanceSettings env).maxRotation rect e
      st).rotateY - (-20)|
      ≤ 0.8 * (getPerformanceSettings env).maxRotation := by
    rw [applyMove_rotateY_eq]
    exact damped_bound htx hm
  exact ⟨hX, hY, by linarith, by linarith⟩

/-- Concrete instance of `tilt_offsets_bounded`: desktop profile, a 200 by
200 rectangle at the origin, pointer at the right edge's middle. -/
theorem tilt_offsets_bounded_witness :
    (0 : ℚ) < 200 ∧
    (|(applyMove
        (getPerformanceSettings ⟨true, false, 0, 1440, false⟩).maxRotation
        ⟨0, 0, 200, 200⟩ ⟨200, 100⟩ initialTilt).rotateX - 15|
      ≤ 0.8 *
        (getPerformanceSettings ⟨true, false, 0, 1440, false⟩).maxRotation ∧
    |(applyMove
        (getPerformanceSettings ⟨true, false, 0, 1440, false⟩).maxRotation
        ⟨0, 0, 200, 200⟩ ⟨200, 100⟩ initialTilt).rotateY - (-20)|
      ≤ 0.8 *
        (getPerformanceSettings ⟨true, false, 0, 1440, false⟩).maxRotation ∧
    |(applyMove
        (getPerformanceSettings ⟨true, false, 0, 1440, false⟩).maxRotation
        ⟨0, 0, 200, 200⟩ ⟨200, 100⟩ initialTilt).rotateX - 15|
      ≤ (getPerformanceSettings ⟨true, false, 0, 1440, false⟩).maxRotation ∧
    |(applyMove
        (getPerformanceSettings ⟨true, false, 0, 1440, false⟩).maxRotation
        ⟨0, 0, 200, 200⟩ ⟨200, 100⟩ initialTilt).rotateY - (-20)|
      ≤ (getPerformanceSettings ⟨true, false, 0, 1440, false⟩).maxRotation) :=
  ⟨by norm_num,
   tilt_offsets_bounded ⟨true, false, 0, 1440, false⟩ ⟨0, 0, 200, 200⟩
     ⟨200, 100⟩ initialTilt (by norm_num) (by norm_num) (by norm_num)
     (by norm_num) (by norm_num) (by norm_num)⟩

/-! C2: the classifier's decision table. -/

/-- C2: with a `window` object present, a mobile-like environment (touch
capable or viewport width at most 768) yields complex filters off, blur off,
maxRotation 5 and a 100 ms throttle; otherwise filters on, blur on,
maxRotation 10 and a 16 ms throttle; and transitions are disabled exactly
when reduced motion is preferred. -/
theorem performance_settings_decision_table (env : Env)
    (h : env.windowDefined = true) :
    ((env.ontouchstart = true ∨ 0 < env.maxTouchPoints ∨
        env.innerWidth ≤ 768) →
      getPerformanceSettings env
        = ⟨false, false, !env.reducedMotion, 100, 5⟩) ∧
    ((env.ontouchstart = false ∧ env.maxTouchPoints = 0 ∧
        768 < env.innerWidth) →
      getPerformanceSettings env
        = ⟨true, true, !env.reducedMotion, 16, 10⟩) ∧
    ((getPerformanceSettings env).enableTransitions = false ↔
      env.reducedMotion = true) := by
  have hrm : prefersReducedMotion env = env.reducedMotion := by
    simp [prefersReducedMotion, h]
  refine ⟨?_, ?_, ?_⟩
  · intro hcond
    have hmob : isMobileDevice env = true := by
      rcases hcond with h1 | h1 | h1 <;> simp [isMobileDevice, h, h1]
    simp [getPerformanceSettings, hmob, hrm]
  · rintro ⟨h1, h2, h3⟩
    have hmob : isMobileDevice env = false := by
      simp [isMobileDevice, h, h1, h2, not_le.mpr h3]
    simp [getPerformanceSettings, hmob, hrm]
  · cases hb : env.reducedMotion <;>
      simp [getPerformanceSettings, hrm, hb]

/-- Concrete instance of `performance_settings_decision_table`: a touch
device with a 400 px viewport. -/
theorem performance_settings_decision_table_witness :
    (Env.windowDefined ⟨true, true, 0, 400, false⟩ = true) ∧
    ((((⟨true, true, 0, 400, false⟩ : Env).ontouchstart = true ∨
        0 < (⟨true, true, 0, 400, false⟩ : Env).maxTouchPoints ∨
        (⟨true, true, 0, 400, false⟩ : Env).innerWidth ≤ 768) →
      getPerformanceSettings ⟨true, true, 0, 400, false⟩
        = ⟨false, false, !(⟨true, true, 0, 400, false⟩ : Env).reducedMotion,
            100, 5⟩) ∧
    (((⟨true, true, 0, 400, false⟩ : Env).ontouchstart = false ∧
        (⟨true, true, 0, 400, false⟩ : Env).maxTouchPoints = 0 ∧
        768 < (⟨true, true, 0, 400, false⟩ : Env).innerWidth) →
      getPerformanceSettings ⟨true, true, 0, 400, false⟩
        = ⟨true, true, !(⟨true, true, 0, 400, false⟩ : Env).reducedMotion,
            16, 10⟩) ∧
    ((getPerformanceSettings
        ⟨true, true, 0, 400, false⟩).enableTransitions = false ↔
      (⟨true, true, 0, 400, false⟩ : Env).reducedMotion = true)) :=
  ⟨rfl, performance_settings_decision_table ⟨true, true, 0, 400, false⟩ rfl⟩

/-! C4: pointer leave resets the pose; glow reset differs between the two
versions of the component. -/

/-- C4 counterexample: the earlier version's `handleMouseLeave` resets the
glow position to (50, 50), so with the glow at (30, 70) before the leave the
glow is not unchanged, contradicting the claim for that handler. -/
theorem v1_leave_resets_glow :
    (V1.handleMouseLeave
        { initialTilt with glowX := 30, glowY := 70 }).glowX = 50 ∧
    (V1.handleMouseLeave
        { initialTilt with glowX := 30, glowY := 70 }).glowY = 50 ∧
    ¬((V1.handleMouseLeave
        { initialTilt with glowX := 30, glowY := 70 }).glowX
      = ({ initialTilt with glowX := 30, glowY := 70 } : TiltState).glowX) := by
  refine ⟨rfl, rfl, ?_⟩
  norm_num [V1.handleMouseLeave, initialTilt]

/-- C4 amended: in the optimized component, after `handleMouseLeave` the
rotations equal the resting pose (15, -20, 5) exactly, `isHovered` is false,
and the glow position is unchanged from its value before the leave. -/
theorem leave_resets_pose_keeps_glow (st : EngineState) :
    (handleMouseLeave st).tilt.rotateX = 15 ∧
    (handleMouseLeave st).tilt.rotateY = -20 ∧
    (handleMouseLeave st).tilt.rotateZ = 5 ∧
    (handleMouseLeave st).tilt.glowX = st.tilt.glowX ∧
    (handleMouseLeave st).tilt.glowY = st.tilt.glowY ∧
    (handleMouseLeave st).tilt.isHovered = false := by
  simp [handleMouseLeave]

/-! C5: the Z rotation offset uses the fixed constant 3, not a share of the
active profile's maxRotation. -/

/-- C5 counterexample: under the mobile profile (maxRotation 5), at the
right edge's middle of a 200 by 200 rectangle the damped normalized
horizontal position is 0.8, the code's Z rotation is 5 + 0.8 * 3 = 7.4,
while the claimed 5 + nx * (maxRotationDeg * 0.3) would be 6.2. -/
theorem rotationZ_mobile_counterexample :
    (getPerformanceSettings ⟨true, true, 0, 400, false⟩).maxRotation = 5 ∧
    (applyMove 5 ⟨0, 0, 200, 200⟩ ⟨200, 100⟩ initialTilt).rotateZ
      ≠ 5 + ((200 : ℚ) - (0 + 200 / 2)) / (200 / 2) * 0.8 * (5 * 0.3) := by
  constructor
  · norm_num [getPerformanceSettings, isMobileDevice, prefersReducedMotion]
  · norm_num [applyMove, initialTilt]

/-- C5 amended: the Z rotation offset is always `normalizedX * 3` with the
fixed constant 3, independent of the profile; this coincides with
`normalizedX * (maxRotationDeg * 0.3)` only for the desktop value 10. -/
theorem rotationZ_offset_fixed_constant (maxR : ℚ) (rect : Rect) (e : Sample)
    (st : TiltState) :
    (applyMove maxR rect e st).rotateZ
      = 5 + (e.clientX - (rect.left + rect.width / 2)) / (rect.width / 2)
          * 0.8 * 3 ∧
    (10 : ℚ) * 0.3 = 3 := by
  constructor
  · simp only [applyMove]
  · norm_num

/-! Scheduling lemmas for the engine's cancel-and-reschedule pattern. -/

lemma getLastD_cons' {α : Type} (a d : α) (l : List α) :
    (a :: l).getLastD d = l.getLastD a := by
  cases l <;> simp [List.getLastD]

lemma cancelPending_eq_nil {st : EngineState} (h : EngineInv st) :
    cancelPending st = [] := by
  rcases h with h | ⟨id, e, h1, h2⟩
  · unfold cancelPending
    cases st.rafId <;> simp [h]
  · unfold cancelPending
    rw [h1, h2]
    simp

lemma handleMouseMove_mounted {st : EngineState} (hInv : EngineInv st)
    (hm : st.mounted = true) (e : Sample) :
    handleMouseMove e st
      = { st with
          queue := [(st.nextId, e)]
          rafId := some st.nextId
          nextId := st.nextId + 1 } := by
  simp [handleMouseMove, hm, cancelPending_eq_nil hInv]

lemma engineInv_move (st : EngineState) (e : Sample) (hInv : EngineInv st) :
    EngineInv (handleMouseMove e st) := by
  by_cases hm : st.mounted = true
  · rw [handleMouseMove_mounted hInv hm e]
    exact Or.inr ⟨st.nextId, e, rfl, rfl⟩
  · have hm' : st.mounted = false := by simpa using hm
    simp only [handleMouseMove, hm', Bool.not_false, if_true]
    exact hInv

lemma engineInv_foldl (es : List Sample) :
    ∀ st : EngineState, EngineInv st →
      EngineInv (es.foldl (fun s e => handleMouseMove e s) st) := by
  induction es with
  | nil => intro st h; exact h
  | cons e rest ih => intro st h; exact ih _ (engineInv_move st e h)

lemma engineInv_queue_len {st : EngineState} (h : EngineInv st) :
    st.queue.length ≤ 1 := by
  rcases h with h | ⟨id, e, _, h2⟩
  · simp [h]
  · simp [h2]

lemma move_foldl_scheduled (rest : List Sample) :
    ∀ (st : EngineState) (id : Nat) (d : Sample),
      st.mounted = true → st.rafId = some id → st.queue = [(id, d)] →
      ∃ j : Nat,
        rest.foldl (fun s e => handleMouseMove e s) st
          = { tilt := st.tilt, queue := [(j, rest.getLastD d)],
              rafId := some j, nextId := st.nextId + rest.length,
              mounted := true } := by
  induction rest with
  | nil =>
      intro st id d hm hr hq
      refine ⟨id, ?_⟩
      cases st
      simp_all [List.getLastD]
  | cons e rest ih =>
      intro st id d hm hr hq
      have hInv : EngineInv st := Or.inr ⟨id, d, hr, hq⟩
      rw [List.foldl_cons, handleMouseMove_mounted hInv hm e]
      obtain ⟨j, hj⟩ := ih
        { st with
          queue := [(st.nextId, e)]
          rafId := some st.nextId
          nextId := st.nextId + 1 } st.nextId e hm rfl rfl
      refine ⟨j, ?_⟩
      rw [hj, getLastD_cons', List.length_cons, Nat.add_assoc,
        Nat.add_comm 1 rest.length]

/-! C3: bursts of pointer-move events are coalesced. -/

/-- C3: processing a nonempty burst of pointer-move events leaves the tilt
state untouched until the refresh tick; the tick then applies exactly the
last event's coordinates; and at any point of any burst at most one
scheduled frame update is pending. -/
theorem pointer_burst_coalesced (st : EngineState) (es : List Sample)
    (rect : Rect) (maxR : ℚ)
    (hInv : EngineInv st) (hm : st.mounted = true) (hne : es ≠ []) :
    (es.foldl (fun s e => handleMouseMove e s) st).tilt = st.tilt ∧
    (frameFire rect maxR
        (es.foldl (fun s e => handleMouseMove e s) st)).tilt
      = applyMove maxR rect (es.getLast hne) st.tilt ∧
    ∀ es' : List Sample,
      (es'.foldl (fun s e => handleMouseMove e s) st).queue.length ≤ 1 := by
  obtain ⟨e, rest, rfl⟩ : ∃ e rest, es = e :: rest := by
    cases es with
    | nil => exact absurd rfl hne
    | cons a l => exact ⟨a, l, rfl⟩
  rw [List.foldl_cons, handleMouseMove_mounted hInv hm e]
  obtain ⟨j, hj⟩ := move_foldl_scheduled rest
    { st with
      queue := [(st.nextId, e)]
      rafId := some st.nextId
      nextId := st.nextId + 1 } st.nextId e hm rfl rfl
  rw [hj, List.getLast_eq_getLastD]
  refine ⟨rfl, ?_, ?_⟩
  · simp [frameFire, fireCallback]
  · intro es'
    exact engineInv_queue_len (engineInv_foldl es' st hInv)

/-- Concrete instance of `pointer_burst_coalesced`: a three-event burst from
the freshly mounted engine. -/
theorem pointer_burst_coalesced_witness :
    EngineInv initialEngine ∧
    ((([⟨60, 60⟩, ⟨80, 90⟩, ⟨200, 200⟩] : List Sample).foldl
        (fun s e => handleMouseMove e s) initialEngine).tilt
      = initialEngine.tilt ∧
    (frameFire ⟨0, 0, 200, 200⟩ 10
        (([⟨60, 60⟩, ⟨80, 90⟩, ⟨200, 200⟩] : List Sample).foldl
          (fun s e => handleMouseMove e s) initialEngine)).tilt
      = applyMove 10 ⟨0, 0, 200, 200⟩
          (([⟨60, 60⟩, ⟨80, 90⟩, ⟨200, 200⟩] : List Sample).getLast
            (by simp)) initialEngine.tilt ∧
    ∀ es' : List Sample,
      (es'.foldl (fun s e => handleMouseMove e s)
        initialEngine).queue.length ≤ 1) :=
  ⟨Or.inl rfl,
   pointer_burst_coalesced initialEngine [⟨60, 60⟩, ⟨80, 90⟩, ⟨200, 200⟩]
     ⟨0, 0, 200, 200⟩ 10 (Or.inl rfl) rfl (by simp)⟩

/-! C6: pointer leave does not cancel the pending scheduled update. -/

/-- C6 counterexample: from the freshly mounted engine, a move to the
bottom-right corner followed immediately by a leave still has a scheduled
callback queued, and when the frame fires the reset pose is overwritten
(rotateX becomes 7, not the resting 15). -/
theorem stale_move_survives_leave :
    (handleMouseLeave
        (handleMouseMove ⟨200, 200⟩ initialEngine)).queue ≠ [] ∧
    (frameFire ⟨0, 0, 200, 200⟩ 10
        (handleMouseLeave
          (handleMouseMove ⟨200, 200⟩ initialEngine))).tilt.rotateX = 7 ∧
    (7 : ℚ) ≠ 15 := by
  refine ⟨?_, ?_, by norm_num⟩
  · simp [handleMouseLeave, handleMouseMove, initialEngine, cancelPending]
  · norm_num [frameFire, handleMouseLeave, handleMouseMove, initialEngine,
      cancelPending, fireCallback, applyMove, initialTilt]

/-- C6 amended: `handleMouseLeave` resets the pose but leaves both the
scheduled queue and `rafIdRef` untouched, so a pointer-move sample scheduled
before the leave still fires afterwards and mutates the state; only the
unmount cleanup cancels. -/
theorem leave_keeps_pending_update (st : EngineState) (rect : Rect)
    (maxR : ℚ) (id : Nat) (e : Sample)
    (hm : st.mounted = true) (hq : st.queue = [(id, e)]) :
    (handleMouseLeave st).queue = st.queue ∧
    (handleMouseLeave st).rafId = st.rafId ∧
    (frameFire rect maxR (handleMouseLeave st)).tilt
      = applyMove maxR rect e (handleMouseLeave st).tilt := by
  refine ⟨rfl, rfl, ?_⟩
  simp [frameFire, handleMouseLeave, hq, fireCallback, hm]

/-- Concrete instance of `leave_keeps_pending_update`: one move from the
freshly mounted engine, then a leave. -/
theorem leave_keeps_pending_update_witness :
    ((handleMouseMove ⟨200, 200⟩ initialEngine).mounted = true ∧
     (handleMouseMove ⟨200, 200⟩ initialEngine).queue
       = [(0, ⟨200, 200⟩)]) ∧
    ((handleMouseLeave (handleMouseMove ⟨200, 200⟩ initialEngine)).queue
       = (handleMouseMove ⟨200, 200⟩ initialEngine).queue ∧
     (handleMouseLeave (handleMouseMove ⟨200, 200⟩ initialEngine)).rafId
       = (handleMouseMove ⟨200, 200⟩ initialEngine).rafId ∧
     (frameFire ⟨0, 0, 200, 200⟩ 10
         (handleMouseLeave
           (handleMouseMove ⟨200, 200⟩ initialEngine))).tilt
       = applyMove 10 ⟨0, 0, 200, 200⟩ ⟨200, 200⟩
           (handleMouseLeave
             (handleMouseMove ⟨200, 200⟩ initialEngine)).tilt) :=
  ⟨⟨rfl, by simp [handleMouseMove, initialEngine, cancelPending]⟩,
   leave_keeps_pending_update (handleMouseMove ⟨200, 200⟩ initialEngine)
     ⟨0, 0, 200, 200⟩ 10 0 ⟨200, 200⟩ rfl
     (by simp [handleMouseMove, initialEngine, cancelPending])⟩

/-! C7: the unmounted guard is a silent no-op, but a zero-sized rectangle is
not special-cased. -/

/-- C7 counterexample: with a zero-width rectangle the update is not a
no-op: the glow X coordinate is overwritten (to the rational junk value 0 of
the embedded division by zero; JavaScript produces a non-finite value
instead, likewise different from the previous 50). -/
theorem zero_width_rect_mutates_state :
    (frameFire ⟨0, 0, 0, 200⟩ 10
        (handleMouseMove ⟨5, 100⟩ initialEngine)).tilt.glowX = 0 ∧
    initialEngine.tilt.glowX = 50 ∧
    (frameFire ⟨0, 0, 0, 200⟩ 10
        (handleMouseMove ⟨5, 100⟩ initialEngine)).tilt.glowX
      ≠ initialEngine.tilt.glowX := by
  refine ⟨?_, rfl, ?_⟩ <;>
    norm_num [frameFire, handleMouseMove, initialEngine, cancelPending,
      fireCallback, applyMove, initialTilt]

/-- C7 amended: when the element is not mounted the pointer-move handler and
the scheduled callback are both exact no-ops (no error, every field of the
previous state retained). -/
theorem unmounted_move_is_noop (e : Sample) (st : EngineState) (rect : Rect)
    (maxR : ℚ) (h : st.mounted = false) :
    handleMouseMove e st = st ∧ fireCallback rect maxR e st = st := by
  constructor <;> simp [handleMouseMove, fireCallback, h]

/-- Concrete instance of `unmounted_move_is_noop`. -/
theorem unmounted_move_is_noop_witness :
    ({ initialEngine with mounted := false } : EngineState).mounted
      = false ∧
    (handleMouseMove ⟨1, 2⟩ { initialEngine with mounted := false }
        = { initialEngine with mounted := false } ∧
     fireCallback ⟨0, 0, 200, 200⟩ 10 ⟨1, 2⟩
        { initialEngine with mounted := false }
        = { initialEngine with mounted := false }) :=
  ⟨rfl, unmounted_move_is_noop ⟨1, 2⟩
    { initialEngine with mounted := false } ⟨0, 0, 200, 200⟩ 10 rfl⟩

/-! C8: disposal cancels the pending update and silences stray callbacks. -/

/-- C8: unmount cleanup empties the scheduled queue, leaves the tilt state
as it was, and afterwards neither a refresh tick nor a stray callback can
mutate the tilt state. -/
theorem dispose_cancels_and_silences (st : EngineState) (rect : Rect)
    (maxR : ℚ) (e : Sample) (hInv : EngineInv st) :
    (dispose st).queue = [] ∧
    (dispose st).tilt = st.tilt ∧
    (frameFire rect maxR (dispose st)).tilt = st.tilt ∧
    fireCallback rect maxR e (dispose st) = dispose st := by
  refine ⟨cancelPending_eq_nil hInv, rfl, ?_, ?_⟩
  · simp [frameFire, dispose, cancelPending_eq_nil hInv]
  · simp [fireCallback, dispose]

/-- Concrete instance of `dispose_cancels_and_silences`: disposal right
after one scheduled move. -/
theorem dispose_cancels_and_silences_witness :
    EngineInv (handleMouseMove ⟨200, 200⟩ initialEngine) ∧
    ((dispose (handleMouseMove ⟨200, 200⟩ initialEngine)).queue = [] ∧
     (dispose (handleMouseMove ⟨200, 200⟩ initialEngine)).tilt
       = (handleMouseMove ⟨200, 200⟩ initialEngine).tilt ∧
     (frameFire ⟨0, 0, 200, 200⟩ 10
         (dispose (handleMouseMove ⟨200, 200⟩ initialEngine))).tilt
       = (handleMouseMove ⟨200, 200⟩ initialEngine).tilt ∧
     fireCallback ⟨0, 0, 200, 200⟩ 10 ⟨60, 60⟩
         (dispose (handleMouseMove ⟨200, 200⟩ initialEngine))
       = dispose (handleMouseMove ⟨200, 200⟩ initialEngine)) :=
  ⟨Or.inr ⟨0, ⟨200, 200⟩, by simp [handleMouseMove, initialEngine],
     by simp [handleMouseMove, initialEngine, cancelPending]⟩,
   dispose_cancels_and_silences
     (handleMouseMove ⟨200, 200⟩ initialEngine) ⟨0, 0, 200, 200⟩ 10
     ⟨60, 60⟩
     (Or.inr ⟨0, ⟨200, 200⟩, by simp [handleMouseMove, initialEngine],
       by simp [handleMouseMove, initialEngine, cancelPending]⟩)⟩

/-! C9: the glow formula, its range inside the rectangle, and its escape
outside. -/

/-- C9 counterexample: a pointer-move sample at x = 400 over a rectangle of
width 200 starting at 0 is applied without clamping, reaching a state with
glowX = 200, outside [0, 100]. -/
theorem glow_leaves_percentage_range :
    (frameFire ⟨0, 0, 200, 200⟩ 10
        (handleMouseMove ⟨400, 100⟩ initialEngine)).tilt.glowX = 200 ∧
    ¬((frameFire ⟨0, 0, 200, 200⟩ 10
        (handleMouseMove ⟨400, 100⟩ initialEngine)).tilt.glowX ≤ 100) := by
  constructor <;>
    norm_num [frameFire, handleMouseMove, initialEngine, cancelPending,
      fireCallback, applyMove, initialTilt]

/-- C9 amended: the glow position is the pointer's fractional position in
the rectangle times 100, with no clamping, and it lies in [0, 100] whenever
the sample's coordinates lie inside the measured rectangle. -/
theorem glow_formula_and_range_inside (maxR : ℚ) (rect : Rect) (e : Sample)
    (st : TiltState)
    (hw : 0 < rect.width) (hh : 0 < rect.height)
    (hx1 : rect.left ≤ e.clientX) (hx2 : e.clientX ≤ rect.left + rect.width)
    (hy1 : rect.top ≤ e.clientY) (hy2 : e.clientY ≤ rect.top + rect.height) :
    (applyMove maxR rect e st).glowX
      = (e.clientX - rect.left) / rect.width * 100 ∧
    (applyMove maxR rect e st).glowY
      = (e.clientY - rect.top) / rect.height * 100 ∧
    0 ≤ (applyMove maxR rect e st).glowX ∧
    (applyMove maxR rect e st).glowX ≤ 100 ∧
    0 ≤ (applyMove maxR rect e st).glowY ∧
    (applyMove maxR rect e st).glowY ≤ 100 := by
  have hgX : (applyMove maxR rect e st).glowX
      = (e.clientX - rect.left) / rect.width * 100 := by
    simp [applyMove]
  have hgY : (applyMove maxR rect e st).glowY
      = (e.clientY - rect.top) / rect.height * 100 := by
    simp [applyMove]
  have hx0 : 0 ≤ (e.clientX - rect.left) / rect.width :=
    div_nonneg (by linarith) (le_of_lt hw)
  have hx3 : (e.clientX - rect.left) / rect.width ≤ 1 := by
    rw [div_le_one hw]
    linarith
  have hy0 : 0 ≤ (e.clientY - rect.top) / rect.height :=
    div_nonneg (by linarith) (le_of_lt hh)
  have hy3 : (e.clientY - rect.top) / rect.height ≤ 1 := by
    rw [div_le_one hh]
    linarith
  refine ⟨hgX, hgY, ?_, ?_, ?_, ?_⟩
  · rw [hgX]; linarith
  · rw [hgX]; linarith
  · rw [hgY]; linarith
  · rw [hgY]; linarith

/-- Concrete instance of `glow_formula_and_range_inside`: pointer at the
right edge's middle of a 200 by 200 rectangle. -/
theorem glow_formula_and_range_inside_witness :
    (0 : ℚ) < 200 ∧
    ((applyMove 10 ⟨0, 0, 200, 200⟩ ⟨200, 100⟩ initialTilt).glowX
      = ((200 : ℚ) - 0) / 200 * 100 ∧
    (applyMove 10 ⟨0, 0, 200, 200⟩ ⟨200, 100⟩ initialTilt).glowY
      = ((100 : ℚ) - 0) / 200 * 100 ∧
    0 ≤ (applyMove 10 ⟨0, 0, 200, 200⟩ ⟨200, 100⟩ initialTilt).glowX ∧
    (applyMove 10 ⟨0, 0, 200, 200⟩ ⟨200, 100⟩ initialTilt).glowX ≤ 100 ∧
    0 ≤ (applyMove 10 ⟨0, 0, 200, 200⟩ ⟨200, 100⟩ initialTilt).glowY ∧
    (applyMove 10 ⟨0, 0, 200, 200⟩ ⟨200, 100⟩ initialTilt).glowY ≤ 100) :=
  ⟨by norm_num,
   glow_formula_and_range_inside 10 ⟨0, 0, 200, 200⟩ ⟨200, 100⟩ initialTilt
     (by norm_num) (by norm_num) (by norm_num) (by norm_num) (by norm_num)
     (by norm_num)⟩

/-! C10: throttleRAF keeps the first scheduled frame and replaces only the
stored arguments. -/

lemma throttledCall_scheduled {α : Type} (a : α) (st : ThrottleState α)
    (id : Nat) (h : st.rafId = some id) :
    throttledCall a st = { st with lastArgs := some a } := by
  simp [throttledCall, h]

lemma throttle_foldl_scheduled {α : Type} (rest : List α) :
    ∀ (st : ThrottleState α) (id : Nat) (d : α),
      st.rafId = some id → st.lastArgs = some d →
      rest.foldl (fun s a => throttledCall a s) st
        = { rafId := some id, lastArgs := some (rest.getLastD d),
            nextId := st.nextId } := by
  induction rest with
  | nil =>
      intro st id d h1 h2
      cases st
      simp_all [List.getLastD]
  | cons a rest ih =>
      intro st id d h1 h2
      rw [List.foldl_cons, throttledCall_scheduled a st id h1]
      rw [ih { st with lastArgs := some a } id a h1 rfl]
      rw [getLastD_cons']

/-- C10: a throttleRAF wrapper starting idle and hit by a nonempty burst of
calls keeps the frame handle requested at the first call (it is never
cancelled or replaced), stores the most recent call's arguments, invokes the
wrapped callback exactly once with those arguments when the frame fires, and
in general any single frame invokes the callback at most once. -/
theorem throttleRAF_coalesces {α : Type} (st : ThrottleState α)
    (as : List α) (h1 : st.rafId = none) (h2 : st.lastArgs = none)
    (hne : as ≠ []) :
    (as.foldl (fun s a => throttledCall a s) st).rafId = some st.nextId ∧
    (as.foldl (fun s a => throttledCall a s) st).lastArgs
      = some (as.getLast hne) ∧
    (throttleFrameFire (as.foldl (fun s a => throttledCall a s) st)).1
      = [as.getLast hne] ∧
    ∀ st2 : ThrottleState α, (throttleFrameFire st2).1.length ≤ 1 := by
  obtain ⟨a, rest, rfl⟩ : ∃ a rest, as = a :: rest := by
    cases as with
    | nil => exact absurd rfl hne
    | cons x l => exact ⟨x, l, rfl⟩
  have hfirst : throttledCall a st
      = { rafId := some st.nextId, lastArgs := some a,
          nextId := st.nextId + 1 } := by
    cases st
    simp_all [throttledCall]
  rw [List.foldl_cons, hfirst,
    throttle_foldl_scheduled rest _ st.nextId a rfl rfl,
    List.getLast_eq_getLastD]
  refine ⟨rfl, rfl, ?_, ?_⟩
  · simp [throttleFrameFire]
  · intro st2
    unfold throttleFrameFire
    cases h3 : st2.rafId with
    | none => simp
    | some id =>
        cases h4 : st2.lastArgs with
        | none => simp
        | some a2 => simp

/-- Concrete instance of `throttleRAF_coalesces`: a burst of three calls on
an idle natural-number wrapper. -/
theorem throttleRAF_coalesces_witness :
    (([1, 2, 3] : List ℕ) ≠ []) ∧
    ((([1, 2, 3] : List ℕ).foldl (fun s a => throttledCall a s)
        (ThrottleState.idle ℕ)).rafId
      = some (ThrottleState.idle ℕ).nextId ∧
    (([1, 2, 3] : List ℕ).foldl (fun s a => throttledCall a s)
        (ThrottleState.idle ℕ)).lastArgs
      = some (([1, 2, 3] : List ℕ).getLast (by simp)) ∧
    (throttleFrameFire (([1, 2, 3] : List ℕ).foldl
        (fun s a => throttledCall a s) (ThrottleState.idle ℕ))).1
      = [([1, 2, 3] : List ℕ).getLast (by simp)] ∧
    ∀ st2 : ThrottleState ℕ, (throttleFrameFire st2).1.length ≤ 1) :=
  ⟨by simp,
   throttleRAF_coalesces (ThrottleState.idle ℕ) [1, 2, 3] rfl rfl
     (by simp)⟩
